import Mathlib

/-!
# Verification of the ts-template-mcp server core

A shallow embedding of the request-scoped session/transport registry, the
protocol dispatch contract, the zod validation schemas and the example tool
handlers of the ts-template-mcp repository, together with proofs of the
specification's testable properties.

Modelling conventions:
* JavaScript numbers are modelled as rationals (`Rat`); the arithmetic of the
  calculator tool is exact on its integer test domain, matching the spec's
  "exact arithmetic result".
* Stateful code (the session `Map`) becomes explicit state passing; a JS `Map`
  becomes an association list keyed by strings.
* Code that may `throw` becomes `Except String`; a total Lean function cannot
  propagate an exception, which is exactly the boundary property at stake.
* Sources of nondeterminism (`Date.now()`, `Math.random()`) are gathered in an
  explicit `World` value threaded to the handlers that read them.
* Decimal formatting of numbers, date locale formatting and the emoji glyphs of
  the weather strings are abstracted by simple deterministic renderings; no
  claim depends on their exact shape.
-/

/-- A JavaScript/JSON value, as passed in `arguments` objects of `tools/call`
and produced by `JSON.stringify`. -/
inductive JSValue where
  | null : JSValue
  | bool (b : Bool) : JSValue
  | num (q : Rat) : JSValue
  | str (s : String) : JSValue
  | arr (xs : List JSValue) : JSValue
  | obj (fields : List (String × JSValue)) : JSValue

/-- `typeof`-style name of a JS value, used in zod invalid-type messages. -/
def JSValue.typeName : JSValue → String
  | .null => "null"
  | .bool _ => "boolean"
  | .num _ => "number"
  | .str _ => "string"
  | .arr _ => "object"
  | .obj _ => "object"

/-- JavaScript truthiness of a value (`!operation` checks in the handlers). -/
def JSValue.truthy : JSValue → Bool
  | .null => false
  | .bool b => b
  | .num q => q != 0
  | .str s => s != ""
  | .arr _ => true
  | .obj _ => true

/-- Field access on an `arguments` object (first binding wins, as in a JS
object literal read). -/
def lookupField (fields : List (String × JSValue)) (key : String) : Option JSValue :=
  match fields.find? (fun f => f.fst = key) with
  | some f => some f.snd
  | none => none

/-- The raw `arguments` of a `tools/call` request: a JS object. -/
abbrev RawArgs := List (String × JSValue)

/-- One zod validation issue: a path into the argument object plus a message
(`error.errors` entries in `validateToolArgs`, src/schemas/toolSchemas.ts). -/
structure ZodIssue where
  path : List String
  message : String
deriving DecidableEq, Repr

/-- Rendering of one issue inside the `validateToolArgs` error message:
`${err.path.join('.')}: ${err.message}`. -/
def issueText (i : ZodIssue) : String :=
  String.intercalate "." i.path ++ ": " ++ i.message

/-- `errorMessages.join(', ')` over all issues, as in `validateToolArgs`. -/
def renderIssues (issues : List ZodIssue) : String :=
  String.intercalate ", " (issues.map issueText)

/-- One item of a tool result's `content` array (`{ type: 'text', text }`). -/
structure ContentItem where
  type : String
  text : String
deriving DecidableEq, Repr

/-- The success envelope returned by a tool handler: `{ content: [...] }`. -/
structure ToolEnvelope where
  content : List ContentItem
deriving DecidableEq, Repr

/-- One item of a resource result's `contents` array. -/
structure ResourceContent where
  uri : String
  mimeType : String
  text : String
deriving DecidableEq, Repr

/-- The envelope returned by a resource handler: `{ contents: [...] }`. -/
structure ResourceEnvelope where
  contents : List ResourceContent
deriving DecidableEq, Repr

/-- The ambient sources of nondeterminism read by handlers: `Date.now()` and
the stream of successive `Math.random()` results (index of the call site in
evaluation order).  A pure handler simply ignores its `World`. -/
structure World where
  now : Nat
  randoms : Nat → Rat

/-! ## Session registry (src/server.ts, `fastify.all('/mcp')` handler) -/

/-- The `sessions : Map<string, StreamableHTTPServerTransport>` of
src/server.ts, with transports identified by the numeric order of their
creation. -/
abbrev SessionMap := List (String × Nat)

/-- `sessions.get(sessionId)`. -/
def lookupSession (m : SessionMap) (k : String) : Option Nat :=
  match m.find? (fun e => e.fst = k) with
  | some e => some e.snd
  | none => none

/-- `session-${Date.now()}-${Math.random().toString(36).substr(2, 9)}`:
the generated identifier is a function of the timestamp and the random
suffix. -/
def genSessionId (now : Nat) (suffix : String) : String :=
  "session-" ++ toString now ++ "-" ++ suffix

/-- Result of one pass through the session-resolution block of the `/mcp`
route: the effective session id, the transport bound to it, the updated map,
the next fresh transport number, and whether a new binding was created. -/
structure ResolveResult where
  sessionId : String
  transport : Nat
  sessions : SessionMap
  nextTransport : Nat
  created : Bool
deriving DecidableEq, Repr

/-- The session-resolution step of src/server.ts lines 144-162:
`const sessionId = (request.headers['mcp-session-id'] as string) || fresh;`
followed by `sessions.get` and, on a miss, creation and insertion of a new
transport.  JS `||` takes the generated id also when the header is the empty
string. -/
def resolveOrCreate (sessions : SessionMap) (nextTransport : Nat)
    (headerSessionId : Option String) (fresh : String) : ResolveResult :=
  let sid :=
    match headerSessionId with
    | some s => if s = "" then fresh else s
    | none => fresh
  match lookupSession sessions sid with
  | some t => ⟨sid, t, sessions, nextTransport, false⟩
  | none => ⟨sid, nextTransport, (sid, nextTransport) :: sessions, nextTransport + 1, true⟩

/-- The first of two consecutive calls to the session-resolution step. -/
def firstCall (sessions : SessionMap) (nextTransport : Nat)
    (headerSessionId : Option String) (fresh : String) : ResolveResult :=
  resolveOrCreate sessions nextTransport headerSessionId fresh

/-- The second of two consecutive calls to the session-resolution step,
running on the state left by the first. -/
def secondCall (sessions : SessionMap) (nextTransport : Nat)
    (header1 : Option String) (fresh1 : String)
    (header2 : Option String) (fresh2 : String) : ResolveResult :=
  let r := resolveOrCreate sessions nextTransport header1 fresh1
  resolveOrCreate r.sessions r.nextTransport header2 fresh2

/-! ## Zod schemas (src/schemas/commonSchemas.ts, src/schemas/toolSchemas.ts) -/

/-- `NameSchema` applied to the `name` field of an arguments object:
`z.string().min(1, 'Name is required').max(100, 'Name cannot exceed 100
characters')` inside `z.object({ name: NameSchema })`. -/
def parseNameField (v : Option JSValue) : Except (List ZodIssue) String :=
  match v with
  | none => .error [⟨["name"], "Required"⟩]
  | some (.str s) =>
    if s.length < 1 then .error [⟨["name"], "Name is required"⟩]
    else if s.length > 100 then .error [⟨["name"], "Name cannot exceed 100 characters"⟩]
    else .ok s
  | some v => .error [⟨["name"], "Expected string, received " ++ v.typeName⟩]

/-- `SayHelloSchema = z.object({ name: NameSchema })`. -/
def SayHelloSchemaParse (args : RawArgs) : Except (List ZodIssue) String :=
  parseNameField (lookupField args "name")

/-- The `operation` field of `CalculateSchema`: `z.enum(['add', 'subtract',
'multiply', 'divide'], { errorMap: ... })`.  The custom error map replaces
every failure message for this field. -/
def parseOperationField (v : Option JSValue) : Except (List ZodIssue) String :=
  match v with
  | some (.str s) =>
    if s = "add" ∨ s = "subtract" ∨ s = "multiply" ∨ s = "divide" then .ok s
    else .error [⟨["operation"], "Operation must be one of: add, subtract, multiply, divide"⟩]
  | _ => .error [⟨["operation"], "Operation must be one of: add, subtract, multiply, divide"⟩]

/-- A plain `z.number()` field named `key`. -/
def parseNumberField (key : String) (v : Option JSValue) : Except (List ZodIssue) Rat :=
  match v with
  | none => .error [⟨[key], "Required"⟩]
  | some (.num q) => .ok q
  | some v => .error [⟨[key], "Expected number, received " ++ v.typeName⟩]

/-- The issues of a field-parse outcome (empty on success). -/
def fieldIssues {α : Type} (r : Except (List ZodIssue) α) : List ZodIssue :=
  match r with
  | .ok _ => []
  | .error es => es

/-- The validated arguments of the calculate tool (`CalculateArgs`). -/
structure CalculateArgs where
  operation : String
  a : Rat
  b : Rat
deriving DecidableEq, Repr

/-- `CalculateSchema` of src/schemas/toolSchemas.ts: a `z.object` over
`operation`, `a`, `b` (collecting the issues of every failing field), then
the `.refine` rejecting `operation === 'divide' && b === 0` with message
`Division by zero is not allowed` at path `['b']`.  The refinement only runs
once the base object parse has succeeded, as in zod. -/
def CalculateSchemaParse (args : RawArgs) : Except (List ZodIssue) CalculateArgs :=
  match parseOperationField (lookupField args "operation"),
      parseNumberField "a" (lookupField args "a"),
      parseNumberField "b" (lookupField args "b") with
  | .ok op, .ok a, .ok b =>
    if op = "divide" ∧ b = 0 then .error [⟨["b"], "Division by zero is not allowed"⟩]
    else .ok ⟨op, a, b⟩
  | r1, r2, r3 => .error (fieldIssues r1 ++ fieldIssues r2 ++ fieldIssues r3)

/-- The validated arguments of the weather forecast tool. -/
structure WeatherForecastArgs where
  latitude : Rat
  longitude : Rat
deriving DecidableEq, Repr

/-- `LatitudeSchema = z.number().min(-90, msg).max(90, msg)` applied to the
`latitude` field. -/
def parseLatitudeField (v : Option JSValue) : Except (List ZodIssue) Rat :=
  match v with
  | none => .error [⟨["latitude"], "Required"⟩]
  | some (.num q) =>
    if q < -90 then .error [⟨["latitude"], "Latitude must be between -90 and 90"⟩]
    else if q > 90 then .error [⟨["latitude"], "Latitude must be between -90 and 90"⟩]
    else .ok q
  | some v => .error [⟨["latitude"], "Expected number, received " ++ v.typeName⟩]

/-- `LongitudeSchema = z.number().min(-180, msg).max(180, msg)` applied to the
`longitude` field. -/
def parseLongitudeField (v : Option JSValue) : Except (List ZodIssue) Rat :=
  match v with
  | none => .error [⟨["longitude"], "Required"⟩]
  | some (.num q) =>
    if q < -180 then .error [⟨["longitude"], "Longitude must be between -180 and 180"⟩]
    else if q > 180 then .error [⟨["longitude"], "Longitude must be between -180 and 180"⟩]
    else .ok q
  | some v => .error [⟨["longitude"], "Expected number, received " ++ v.typeName⟩]

/-- `WeatherForecastSchema = z.object({ latitude: LatitudeSchema, longitude:
LongitudeSchema })`, collecting the issues of both fields. -/
def WeatherForecastSchemaParse (args : RawArgs) : Except (List ZodIssue) WeatherForecastArgs :=
  match parseLatitudeField (lookupField args "latitude"),
      parseLongitudeField (lookupField args "longitude") with
  | .ok la, .ok lo => .ok ⟨la, lo⟩
  | r1, r2 => .error (fieldIssues r1 ++ fieldIssues r2)

/-- `validateToolArgs` of src/schemas/toolSchemas.ts: run the schema and, on
failure, throw `Validation failed: ${messages}` where the messages render each
issue as `path: message` joined by commas. -/
def validateToolArgs {α : Type} (parse : RawArgs → Except (List ZodIssue) α)
    (args : RawArgs) : Except String α :=
  match parse args with
  | .ok a => .ok a
  | .error issues => .error ("Validation failed: " ++ renderIssues issues)

/-- The validate-then-run shape shared by the tool handlers of
src/server.ts (part with `validateToolArgs`) and the weather plugin: the
handler body runs only when validation has succeeded. -/
def runValidatedTool {α : Type} (parse : RawArgs → Except String α)
    (handler : α → World → Except String ToolEnvelope)
    (args : RawArgs) (w : World) : Except String ToolEnvelope :=
  match parse args with
  | .error e => .error e
  | .ok a => handler a w

/-! ## Example tool handlers (src/server.ts and the plugin files) -/

/-- Rendering of a number inside a template literal.  Integers render as in
JS (`5`); non-integral rationals render as `num/den`, abstracting JS decimal
formatting (no claim depends on the non-integral shape). -/
def numRepr (q : Rat) : String :=
  if q.den = 1 then toString q.num else toString q.num ++ "/" ++ toString q.den

/-- The `sayHello` handler body of src/server.ts lines 32-39: a validated
`name` yields `Hello, ${name}!`.  The handler reads nothing from the ambient
world. -/
def sayHelloHandler (name : String) (_w : World) : ToolEnvelope :=
  ⟨[⟨"text", "Hello, " ++ name ++ "!"⟩]⟩

/-- The arithmetic switch of the `calculate` handler of src/server.ts lines
63-84, including the division-by-zero guard and the unknown-operation
default, both of which `throw`. -/
def calcSwitch (operation : String) (a b : Rat) : Except String Rat :=
  if operation = "add" then .ok (a + b)
  else if operation = "subtract" then .ok (a - b)
  else if operation = "multiply" then .ok (a * b)
  else if operation = "divide" then
    if b = 0 then .error "Division by zero is not allowed"
    else .ok (a / b)
  else .error ("Unknown operation: " ++ operation ++ ". Supported: add, subtract, multiply, divide")

/-- The arithmetic switch of the zod-validated `calculate` handler variant:
identical except that `divide` has no zero guard, because the schema
refinement already rejected `b = 0` (`Rat` division by zero yields `0` on the
unreachable branch). -/
def calcSwitchUnguarded (operation : String) (a b : Rat) : Except String Rat :=
  if operation = "add" then .ok (a + b)
  else if operation = "subtract" then .ok (a - b)
  else if operation = "multiply" then .ok (a * b)
  else if operation = "divide" then .ok (a / b)
  else .error ("Unknown operation: " ++ operation ++ ". Supported: add, subtract, multiply, divide")

/-- The result text of the calculate handler:
`${a} ${operation} ${b} = ${result}`. -/
def calcText (operation : String) (a b r : Rat) : String :=
  numRepr a ++ " " ++ operation ++ " " ++ numRepr b ++ " = " ++ numRepr r

/-- The full `calculate` handler of src/server.ts lines 54-94, running on
arguments already validated by the tool's input schema. -/
def calculateHandler (operation : String) (a b : Rat) (_w : World) : Except String ToolEnvelope :=
  match calcSwitch operation a b with
  | .error e => .error e
  | .ok r => .ok ⟨[⟨"text", calcText operation a b r⟩]⟩

/-- The zod-validated `sayHello` tool: `validateToolArgs(SayHelloSchema,
args)` and then the greeting body. -/
def sayHelloTool (args : RawArgs) (w : World) : Except String ToolEnvelope :=
  runValidatedTool (validateToolArgs SayHelloSchemaParse)
    (fun name w => .ok (sayHelloHandler name w)) args w

/-- The zod-validated `calculate` tool: `validateToolArgs(CalculateSchema,
args)` and then the arithmetic switch without the zero guard. -/
def calculateTool (args : RawArgs) (_w : World) : Except String ToolEnvelope :=
  match validateToolArgs CalculateSchemaParse args with
  | .error e => .error e
  | .ok va =>
    match calcSwitchUnguarded va.operation va.a va.b with
    | .error e => .error e
    | .ok r => .ok ⟨[⟨"text", calcText va.operation va.a va.b r⟩]⟩

/-- `Math.floor` on a JS number: `q.num / q.den` using integer division, the
floor of a rational. -/
def jsFloor (q : Rat) : Int :=
  q.num / (q.den : Int)

/-- `Math.round` on a JS number: floor of `q + 1/2`. -/
def jsRound (q : Rat) : Int :=
  jsFloor (q + 1 / 2)

/-- The condition pool of `simulateWeatherAPI`. -/
def weatherConditions : List String :=
  ["Sunny", "Cloudy", "Rainy", "Partly Cloudy"]

/-- `new Date(now).toLocaleString()`, abstracted to a deterministic rendering
of the timestamp. -/
def localeString (now : Nat) : String :=
  toString now

/-- `simulateWeatherAPI(latitude, longitude)` of the weather plugin: a mock
forecast built from the coordinates, two successive `Math.random()` draws
(one inside the temperature, one for the condition index) and the current
time.  Emoji glyphs and `toFixed(4)` decimal padding are abstracted. -/
def simulateWeatherAPI (latitude longitude : Rat) (w : World) : String :=
  let temperature : Int := jsRound (20 + latitude * (1 / 2) + (w.randoms 0 * 10 - 5))
  let condition : String :=
    (weatherConditions.get? (jsFloor (w.randoms 1 * 4)).toNat).getD "undefined"
  "Current Conditions: " ++ condition ++
    "\nTemperature: " ++ toString temperature ++ "C" ++
    "\n        Location: " ++ numRepr latitude ++ ", " ++ numRepr longitude ++
    "\nUpdated: " ++ localeString w.now

/-- The `getWeatherForecast` tool of the weather plugin:
`validateToolArgs(WeatherForecastSchema, args)`, then the simulated lookup
wrapped in the forecast envelope. -/
def getWeatherForecastTool (args : RawArgs) (w : World) : Except String ToolEnvelope :=
  runValidatedTool (validateToolArgs WeatherForecastSchemaParse)
    (fun va w => .ok ⟨[⟨"text",
      "Weather forecast for coordinates (" ++ numRepr va.latitude ++ ", " ++
        numRepr va.longitude ++ "):\n" ++ simulateWeatherAPI va.latitude va.longitude w⟩]⟩)
    args w

/-! ## JSON rendering (`JSON.stringify`) -/

mutual
/-- `JSON.stringify` of a JS value, in compact form (the pretty-printing
whitespace of `JSON.stringify(x, null, 2)` is not modelled; the claims
concern the encoded fields, not the whitespace). -/
def renderJ : JSValue → String
  | .null => "null"
  | .bool b => if b then "true" else "false"
  | .num q => numRepr q
  | .str s => "\"" ++ s ++ "\""
  | .arr xs => "[" ++ renderArr xs ++ "]"
  | .obj fs => "\x7b" ++ renderObj fs ++ "\x7d"

/-- Comma-joined rendering of an array body. -/
def renderArr : List JSValue → String
  | [] => ""
  | [x] => renderJ x
  | x :: y :: xs => renderJ x ++ "," ++ renderArr (y :: xs)

/-- Comma-joined rendering of an object body. -/
def renderObj : List (String × JSValue) → String
  | [] => ""
  | [(k, v)] => "\"" ++ k ++ "\":" ++ renderJ v
  | (k, v) :: f :: fs => "\"" ++ k ++ "\":" ++ renderJ v ++ "," ++ renderObj (f :: fs)
end

/-- `new Date(now).toISOString()`, abstracted to a deterministic rendering of
the timestamp. -/
def isoString (now : Nat) : String :=
  toString now

/-! ## Resources (src server variant with `registerResource`) -/

/-- The descriptor object serialized by the `server-info` resource handler:
the argument of `JSON.stringify` in `registerResource('server-info', ...)`. -/
def serverInfoFields (w : World) : List (String × JSValue) :=
  [("name", .str "ts-template-mcp-server"),
   ("version", .str "1.0.0"),
   ("description", .str "A TypeScript MCP server template with Zod validation and plugin architecture"),
   ("capabilities", .arr [.str "tools", .str "resources"]),
   ("author", .str "Your Name"),
   ("created", .str (isoString w.now)),
   ("transport", .str "StreamableHTTP + STDIO"),
   ("validation", .str "Zod schemas"),
   ("tools", .arr
     [.obj [("name", .str "sayHello"),
            ("description", .str "Says hello to a person by name"),
            ("parameters", .str "\x7b name: string \x7d")],
      .obj [("name", .str "calculate"),
            ("description", .str "Performs basic arithmetic calculations"),
            ("parameters", .str "\x7b operation: 'add'|'subtract'|'multiply'|'divide', a: number, b: number \x7d")],
      .obj [("name", .str "getWeatherForecast"),
            ("description", .str "Get weather forecast for coordinates"),
            ("parameters", .str "\x7b latitude: number, longitude: number \x7d")],
      .obj [("name", .str "getWeatherAlerts"),
            ("description", .str "Get weather alerts for US state"),
            ("parameters", .str "\x7b state: string \x7d")]])]

/-- The `server-info` resource handler: contents holding the JSON-encoded
descriptor under the resource's own uri. -/
def serverInfoResourceHandler (uri : String) (w : World) : ResourceEnvelope :=
  ⟨[⟨uri, "application/json", renderJ (.obj (serverInfoFields w))⟩]⟩

/-- The `hello-message` resource handler: a fixed plain-text message. -/
def helloMessageResourceHandler (uri : String) (_w : World) : ResourceEnvelope :=
  ⟨[⟨uri, "text/plain", "Hello from the MCP TypeScript Server!"⟩]⟩

/-! ## Capability table and protocol dispatch -/

/-- A registered tool: name, discovery metadata and handler, as assembled by
`server.registerTool`. -/
structure ToolEntry where
  name : String
  description : String
  handler : RawArgs → World → Except String ToolEnvelope

/-- A registered resource: registration name, uri, discovery metadata and
handler, as assembled by `server.registerResource`. -/
structure ResourceEntry where
  name : String
  uri : String
  description : String
  mimeType : String
  handler : String → World → ResourceEnvelope

/-- The capability table held by the MCP server object: the tool and resource
entries in registration order. -/
structure McpServerState where
  tools : List ToolEntry
  resources : List ResourceEntry

/-- `server.registerTool`: appends an entry to the tool table. -/
def registerTool (st : McpServerState) (t : ToolEntry) : McpServerState :=
  { st with tools := st.tools ++ [t] }

/-- `server.registerResource`: appends an entry to the resource table. -/
def registerResource (st : McpServerState) (r : ResourceEntry) : McpServerState :=
  { st with resources := st.resources ++ [r] }

/-- `createMCPServer()` of the zod-validated server variant: registers
`sayHello`, `calculate`, the two weather tools (via `registerWeatherTools`)
and the `server-info` and `hello-message` resources, in source order, once at
startup. -/
def createMCPServer : McpServerState :=
  let st : McpServerState := ⟨[], []⟩
  let st := registerTool st ⟨"sayHello", "Says hello to a person by name", sayHelloTool⟩
  let st := registerTool st
    ⟨"calculate", "Performs basic arithmetic calculations (add, subtract, multiply, divide)",
      calculateTool⟩
  let st := registerTool st
    ⟨"getWeatherForecast", "Get weather forecast for a specific location using coordinates",
      getWeatherForecastTool⟩
  let st := registerResource st
    ⟨"server-info", "mcp://server-info", "Information about this MCP server",
      "application/json", serverInfoResourceHandler⟩
  let st := registerResource st
    ⟨"hello-message", "mcp://hello-message", "A simple hello message resource",
      "text/plain", helloMessageResourceHandler⟩
  st

/-- An inbound protocol message, already deserialized by the transport. -/
inductive McpRequest where
  | toolsList : McpRequest
  | toolsCall (name : String) (args : RawArgs) : McpRequest
  | resourcesList : McpRequest
  | resourcesRead (uri : String) : McpRequest

/-- The error classes of the spec's taxonomy. -/
inductive ErrorClass where
  | validation : ErrorClass
  | notFound : ErrorClass
  | internal : ErrorClass
deriving DecidableEq, Repr

/-- The payload of a successful protocol response. -/
inductive McpPayload where
  | toolNames (names : List String) : McpPayload
  | tool (env : ToolEnvelope) : McpPayload
  | resourceUris (uris : List String) : McpPayload
  | resource (env : ResourceEnvelope) : McpPayload

/-- A protocol response: a success envelope or a classified error. -/
inductive McpOutcome where
  | success (payload : McpPayload) : McpOutcome
  | failure (errClass : ErrorClass) (message : String) : McpOutcome

/-- The error class of an outcome, if it is a failure. -/
def errClassOf : McpOutcome → Option ErrorClass
  | .success _ => none
  | .failure c _ => some c

/-- Modelled from the spec: the routing that the MCP SDK (an excluded
collaborator, not part of this repository) performs around the registered
capability table — `list(kind)` returns all entries of a kind in registration
order, `get(kind, name)` resolves an entry before invocation, an unknown name
yields a not-found error, and an exception escaping a handler is converted to
an internal-error response. -/
def dispatch (st : McpServerState) (req : McpRequest) (w : World) :
    McpOutcome × McpServerState :=
  match req with
  | .toolsList => (.success (.toolNames (st.tools.map (fun t => t.name))), st)
  | .toolsCall name args =>
    match st.tools.find? (fun t => t.name = name) with
    | some t =>
      match t.handler args w with
      | .ok env => (.success (.tool env), st)
      | .error e => (.failure .internal e, st)
    | none => (.failure .notFound ("Tool " ++ name ++ " not found"), st)
  | .resourcesList => (.success (.resourceUris (st.resources.map (fun r => r.uri))), st)
  | .resourcesRead uri =>
    match st.resources.find? (fun r => r.uri = uri) with
    | some r => (.success (.resource (r.handler r.uri w)), st)
    | none => (.failure .notFound ("Resource " ++ uri ++ " not found"), st)

/-- Running a sequence of requests against the server, keeping only the
capability-table state each one leaves behind. -/
def runSeq (st : McpServerState) (reqs : List (McpRequest × World)) : McpServerState :=
  reqs.foldl (fun s rw => (dispatch s rw.fst rw.snd).snd) st

/-! ## Hand-written dispatcher variant (src/config/constants.ts, the
`setRequestHandler` server) -/

/-- Template-literal coercion of a JS value to a string. -/
def jsDisplay : JSValue → String
  | .null => "null"
  | .bool b => if b then "true" else "false"
  | .num q => numRepr q
  | .str s => s
  | .arr _ => ""
  | .obj _ => "[object Object]"

/-- The `sayHello` case of the hand-written `tools/call` handler:
`if (!args?.name || typeof args.name !== 'string') throw ...`. -/
def legacySayHello (args : RawArgs) : Except String ToolEnvelope :=
  match lookupField args "name" with
  | some (.str s) =>
    if s = "" then .error "Name parameter is required and must be a string"
    else .ok ⟨[⟨"text", "Hello, " ++ s ++ "!"⟩]⟩
  | _ => .error "Name parameter is required and must be a string"

/-- The arithmetic switch of the hand-written `calculate` case, whose
unknown-operation default carries no `Supported:` suffix. -/
def calcSwitchLegacy (operation : String) (a b : Rat) : Except String Rat :=
  if operation = "add" then .ok (a + b)
  else if operation = "subtract" then .ok (a - b)
  else if operation = "multiply" then .ok (a * b)
  else if operation = "divide" then
    if b = 0 then .error "Division by zero is not allowed"
    else .ok (a / b)
  else .error ("Unknown operation: " ++ operation)

/-- The `calculate` case of the hand-written `tools/call` handler:
`if (!operation || typeof a !== 'number' || typeof b !== 'number') throw
'Invalid parameters for calculation'`, then the switch on `operation` (a
truthy non-string operation falls to the unknown-operation default). -/
def legacyCalculate (args : RawArgs) : Except String ToolEnvelope :=
  match lookupField args "a", lookupField args "b" with
  | some (.num a), some (.num b) =>
    match lookupField args "operation" with
    | some op =>
      if op.truthy = false then .error "Invalid parameters for calculation"
      else
        match op with
        | .str s =>
          match calcSwitchLegacy s a b with
          | .error e => .error e
          | .ok r => .ok ⟨[⟨"text", calcText s a b r⟩]⟩
        | v => .error ("Unknown operation: " ++ jsDisplay v)
    | none => .error "Invalid parameters for calculation"
  | _, _ => .error "Invalid parameters for calculation"

/-- The hand-written `tools/call` request handler of
src/config/constants.ts: a switch over the tool name whose default case is
`throw new Error(`Unknown tool: ${name}`)`. -/
def legacyToolsCall (name : String) (args : RawArgs) : Except String ToolEnvelope :=
  if name = "sayHello" then legacySayHello args
  else if name = "calculate" then legacyCalculate args
  else .error ("Unknown tool: " ++ name)

/-- Modelled from the spec: the protocol boundary around a request handler
(the SDK layer, an excluded collaborator) converts an exception thrown by the
handler into an internal-error response — "handler exception → internal error
class"; no other classification is applied to a thrown plain error. -/
def legacyDispatchToolsCall (name : String) (args : RawArgs) : McpOutcome :=
  match legacyToolsCall name args with
  | .ok env => .success (.tool env)
  | .error e => .failure .internal e

/-! ## The `/mcp` endpoint boundary (src/server.ts lines 142-176) -/

/-- The body of an HTTP response leaving the `/mcp` route: either whatever
the transport wrote, or the structured error object
`{ error: 'Internal MCP server error', message }` sent by the catch block. -/
inductive ResponseBody where
  | transportRaw (raw : String) : ResponseBody
  | errorBody (error : String) (message : String) : ResponseBody
deriving DecidableEq, Repr

/-- An HTTP response delivered back to the caller. -/
structure HttpResponse where
  status : Nat
  body : ResponseBody
deriving DecidableEq, Repr

/-- The `/mcp` route of src/server.ts: resolve or create the session, hand
the request to the bound transport, and catch every failure —
`transport.handleRequest` is the opaque transport pass and may fail
(`Except.error`), covering exceptions raised inside capability handlers.  The
catch block turns the failure into `reply.status(500).send({...})`.  The
function is total: no exception leaves the route. -/
def mcpEndpoint (sessions : SessionMap) (nextTransport : Nat)
    (headerSessionId : Option String) (fresh : String)
    (handleRequest : Nat → Except String HttpResponse) :
    HttpResponse × SessionMap × Nat :=
  let r := resolveOrCreate sessions nextTransport headerSessionId fresh
  match handleRequest r.transport with
  | .ok resp => (resp, r.sessions, r.nextTransport)
  | .error e => (⟨500, .errorBody "Internal MCP server error" e⟩, r.sessions, r.nextTransport)

/-! ## Specification-side comparison definitions and witness fixtures -/

/-- The exact arithmetic result named by the spec for each operation; stated
from the spec's words ("r is the exact arithmetic result"), to be compared
with the switch translated from the source. -/
def exactArithmetic (operation : String) (a b : Rat) : Rat :=
  if operation = "add" then a + b
  else if operation = "subtract" then a - b
  else if operation = "multiply" then a * b
  else a / b

/-- The raw arguments of a weather forecast call with numeric coordinates. -/
def wfArgs (lat lon : Rat) : RawArgs :=
  [("latitude", .num lat), ("longitude", .num lon)]

/-- A concrete ambient world: time zero, every `Math.random()` draw `0`. -/
def w0 : World := ⟨0, fun _ => 0⟩

/-- A concrete ambient world differing from `w0` only in the second
`Math.random()` draw. -/
def wRandB : World := ⟨0, fun i => if i = 1 then 1 / 2 else 0⟩

/-! ## Helper lemmas -/

theorem lookupSession_cons (k k' : String) (t : Nat) (m : SessionMap) :
    lookupSession ((k, t) :: m) k' = if k = k' then some t else lookupSession m k' := by
  simp only [lookupSession, List.find?]
  by_cases h : k = k' <;> simp [h]

theorem runValidatedTool_error_independent {α : Type}
    (parse0 : RawArgs → Except (List ZodIssue) α) (args : RawArgs) (w : World)
    (issues : List ZodIssue) (hp : parse0 args = .error issues)
    (h1 h2 : α → World → Except String ToolEnvelope) :
    runValidatedTool (validateToolArgs parse0) h1 args w
      = runValidatedTool (validateToolArgs parse0) h2 args w := by
  simp [runValidatedTool, validateToolArgs, hp]

theorem calculateTool_valid_eval (op : String) (a b : Rat) (w : World)
    (hop : op = "add" ∨ op = "subtract" ∨ op = "multiply" ∨ op = "divide")
    (hdiv : op = "divide" → b ≠ 0) :
    calculateTool [("operation", .str op), ("a", .num a), ("b", .num b)] w
      = .ok ⟨[⟨"text", calcText op a b (exactArithmetic op a b)⟩]⟩ := by
  rcases hop with h | h | h | h <;> subst h <;>
    simp [calculateTool, validateToolArgs, CalculateSchemaParse, parseOperationField,
      parseNumberField, lookupField, List.find?, calcSwitchUnguarded, exactArithmetic]
  simp [hdiv rfl]

theorem sayHelloTool_valid_eval (name : String) (w : World)
    (hn1 : 1 ≤ name.length) (hn2 : name.length ≤ 100) :
    sayHelloTool [("name", .str name)] w = .ok ⟨[⟨"text", "Hello, " ++ name ++ "!"⟩]⟩ := by
  have hp : SayHelloSchemaParse [("name", .str name)] = .ok name := by
    unfold SayHelloSchemaParse
    have hlk : lookupField [("name", JSValue.str name)] "name" = some (.str name) := rfl
    rw [hlk]
    simp only [parseNameField]
    rw [if_neg (by omega), if_neg (by omega)]
  simp [sayHelloTool, runValidatedTool, validateToolArgs, hp, sayHelloHandler]

/-! ## The claims -/

/-- Claim C1: for every inbound message to the MCP endpoint, the dispatcher
never throws past its boundary — the route is a total function producing an
HTTP response, and every failure of the transport pass (including an
exception raised inside a capability handler) is converted into the
structured `{ error: 'Internal MCP server error', message }` response with
status 500; no exception propagates to the transport layer. -/
theorem mcp_endpoint_converts_all_failures (sessions : SessionMap) (nextTransport : Nat)
    (headerSessionId : Option String) (fresh : String)
    (handleRequest : Nat → Except String HttpResponse) :
    (∃ resp, handleRequest (resolveOrCreate sessions nextTransport headerSessionId fresh).transport
        = .ok resp
      ∧ (mcpEndpoint sessions nextTransport headerSessionId fresh handleRequest).fst = resp) ∨
    (∃ e, handleRequest (resolveOrCreate sessions nextTransport headerSessionId fresh).transport
        = .error e
      ∧ (mcpEndpoint sessions nextTransport headerSessionId fresh handleRequest).fst
        = ⟨500, .errorBody "Internal MCP server error" e⟩) := by
  unfold mcpEndpoint
  cases h : handleRequest (resolveOrCreate sessions nextTransport headerSessionId fresh).transport with
  | ok resp => exact Or.inl ⟨resp, rfl, by simp [h]⟩
  | error e => exact Or.inr ⟨e, rfl, by simp [h]⟩

/-- Claim C2: two calls to the session-resolution step with no session
identifier supplied (and generated identifiers that are fresh and distinct,
which is what the timestamp-plus-random-suffix generator provides) yield two
distinct sessions — distinct keys and distinct transport bindings — while two
calls supplying the same identifier return the same transport binding and the
second call creates nothing and leaves the map unchanged. -/
theorem session_identifier_roundtrip
    (sessions : SessionMap) (nextTransport : Nat) (fresh1 fresh2 s : String)
    (hf1 : lookupSession sessions fresh1 = none)
    (hf2 : lookupSession sessions fresh2 = none)
    (hne : fresh1 ≠ fresh2)
    (hs : s ≠ "") :
    ((firstCall sessions nextTransport none fresh1).sessionId
        ≠ (secondCall sessions nextTransport none fresh1 none fresh2).sessionId
      ∧ (firstCall sessions nextTransport none fresh1).transport
        ≠ (secondCall sessions nextTransport none fresh1 none fresh2).transport
      ∧ (firstCall sessions nextTransport none fresh1).created = true
      ∧ (secondCall sessions nextTransport none fresh1 none fresh2).created = true)
    ∧ ((secondCall sessions nextTransport (some s) fresh1 (some s) fresh2).transport
        = (firstCall sessions nextTransport (some s) fresh1).transport
      ∧ (secondCall sessions nextTransport (some s) fresh1 (some s) fresh2).created = false
      ∧ (secondCall sessions nextTransport (some s) fresh1 (some s) fresh2).sessions
        = (firstCall sessions nextTransport (some s) fresh1).sessions) := by
  constructor
  · unfold secondCall firstCall resolveOrCreate
    simp only [hf1, lookupSession_cons, hne, if_false, hf2]
    simp [hne, Ne.symm hne]
  · unfold secondCall firstCall resolveOrCreate
    simp only [hs, if_neg hs]
    cases hlk : lookupSession sessions s with
    | some t => simp [hlk]
    | none => simp [hlk, lookupSession_cons]

/-- Witness for C2 at concrete inputs: an empty map, two generated
identifiers and a client-supplied identifier. -/
theorem session_identifier_roundtrip_witness :
    ((firstCall [] 0 none (genSessionId 1 "abc")).sessionId
        ≠ (secondCall [] 0 none (genSessionId 1 "abc") none (genSessionId 2 "xyz")).sessionId
      ∧ (firstCall [] 0 none (genSessionId 1 "abc")).transport
        ≠ (secondCall [] 0 none (genSessionId 1 "abc") none (genSessionId 2 "xyz")).transport
      ∧ (firstCall [] 0 none (genSessionId 1 "abc")).created = true
      ∧ (secondCall [] 0 none (genSessionId 1 "abc") none (genSessionId 2 "xyz")).created = true)
    ∧ ((secondCall [] 0 (some "client-session") (genSessionId 1 "abc")
          (some "client-session") (genSessionId 2 "xyz")).transport
        = (firstCall [] 0 (some "client-session") (genSessionId 1 "abc")).transport
      ∧ (secondCall [] 0 (some "client-session") (genSessionId 1 "abc")
          (some "client-session") (genSessionId 2 "xyz")).created = false
      ∧ (secondCall [] 0 (some "client-session") (genSessionId 1 "abc")
          (some "client-session") (genSessionId 2 "xyz")).sessions
        = (firstCall [] 0 (some "client-session") (genSessionId 1 "abc")).sessions) :=
  session_identifier_roundtrip [] 0 (genSessionId 1 "abc") (genSessionId 2 "xyz")
    "client-session" rfl rfl (by decide) (by decide)

/-- Claim C3: for valid tool arguments satisfying the input contract,
`tools/call` returns a success envelope whose content matches the handler's
output — for the calculate tool with a recognized operation and a non-zero
divisor, the envelope text is `a operation b = r` with `r` the exact
arithmetic result, both at the tool and at the dispatch level; for the
sayHello tool with a name of accepted length, the envelope text is
`Hello, name!`. -/
theorem tools_call_valid_arguments_success (op : String) (a b : Rat) (name : String) (w : World)
    (hop : op = "add" ∨ op = "subtract" ∨ op = "multiply" ∨ op = "divide")
    (hdiv : op = "divide" → b ≠ 0)
    (hn1 : 1 ≤ name.length) (hn2 : name.length ≤ 100) :
    calculateTool [("operation", .str op), ("a", .num a), ("b", .num b)] w
      = .ok ⟨[⟨"text", calcText op a b (exactArithmetic op a b)⟩]⟩
    ∧ (dispatch createMCPServer
        (.toolsCall "calculate" [("operation", .str op), ("a", .num a), ("b", .num b)]) w).fst
      = .success (.tool ⟨[⟨"text", calcText op a b (exactArithmetic op a b)⟩]⟩)
    ∧ sayHelloTool [("name", .str name)] w = .ok ⟨[⟨"text", "Hello, " ++ name ++ "!"⟩]⟩ := by
  have hc := calculateTool_valid_eval op a b w hop hdiv
  refine ⟨hc, ?_, sayHelloTool_valid_eval name w hn1 hn2⟩
  have hfind : (createMCPServer.tools.find? (fun t => t.name = "calculate"))
      = some ⟨"calculate",
          "Performs basic arithmetic calculations (add, subtract, multiply, divide)",
          calculateTool⟩ := rfl
  simp only [dispatch, hfind, hc]

/-- Witness for C3: `add` with `a = 2`, `b = 3` yields `2 add 3 = 5`, and
`sayHello` with name `Ada` yields `Hello, Ada!`. -/
theorem tools_call_valid_arguments_success_witness :
    calculateTool [("operation", .str "add"), ("a", .num 2), ("b", .num 3)] w0
      = .ok ⟨[⟨"text", "2 add 3 = 5"⟩]⟩
    ∧ (dispatch createMCPServer (.toolsCall "calculate"
        [("operation", .str "add"), ("a", .num 2), ("b", .num 3)]) w0).fst
      = .success (.tool ⟨[⟨"text", "2 add 3 = 5"⟩]⟩)
    ∧ sayHelloTool [("name", .str "Ada")] w0 = .ok ⟨[⟨"text", "Hello, Ada!"⟩]⟩ := by
  have h := tools_call_valid_arguments_success "add" 2 3 "Ada" w0 (Or.inl rfl)
    (fun hc => absurd hc (by decide)) (by decide) (by decide)
  have htext : calcText "add" 2 3 (exactArithmetic "add" 2 3) = "2 add 3 = 5" := by
    norm_num [calcText, exactArithmetic, numRepr]
    decide
  obtain ⟨h1, h2, h3⟩ := h
  rw [htext] at h1 h2
  exact ⟨h1, h2, h3⟩

/-- Claim C4: calculate with operation `divide` and `b = 0` is rejected by
the schema refinement as a validation error at path `b` — the tool returns
the structured `Validation failed` error, never a thrown exception (the
function is total), the handler body is never invoked (the outcome is the
same under arbitrary replacement handlers), and on the server variant whose
handler guards the division itself, the guard yields the same domain error
before any division happens. -/
theorem divide_by_zero_rejected_without_handler (a : Rat) (w : World)
    (h1 h2 : CalculateArgs → World → Except String ToolEnvelope) :
    CalculateSchemaParse [("operation", .str "divide"), ("a", .num a), ("b", .num 0)]
      = .error [⟨["b"], "Division by zero is not allowed"⟩]
    ∧ calculateTool [("operation", .str "divide"), ("a", .num a), ("b", .num 0)] w
      = .error "Validation failed: b: Division by zero is not allowed"
    ∧ runValidatedTool (validateToolArgs CalculateSchemaParse) h1
        [("operation", .str "divide"), ("a", .num a), ("b", .num 0)] w
      = runValidatedTool (validateToolArgs CalculateSchemaParse) h2
        [("operation", .str "divide"), ("a", .num a), ("b", .num 0)] w
    ∧ calcSwitch "divide" a 0 = .error "Division by zero is not allowed" := by
  have hp : CalculateSchemaParse [("operation", .str "divide"), ("a", .num a), ("b", .num 0)]
      = .error [⟨["b"], "Division by zero is not allowed"⟩] := by
    simp [CalculateSchemaParse, parseOperationField, parseNumberField, lookupField, List.find?]
  refine ⟨hp, ?_, ?_, ?_⟩
  · simp [calculateTool, validateToolArgs, hp, renderIssues, issueText]
    decide
  · simp [runValidatedTool, validateToolArgs, hp]
  · simp [calcSwitch]

/-- Counterexample to claim C5 as stated: on the hand-written `tools/call`
dispatcher, an unregistered tool name (`nonExistentTool`) produces a thrown
plain error that the boundary classifies as an internal error — not a
not-found error class. -/
theorem unknown_tool_not_found_counterexample :
    legacyDispatchToolsCall "nonExistentTool" []
      = .failure .internal "Unknown tool: nonExistentTool"
    ∧ errClassOf (legacyDispatchToolsCall "nonExistentTool" []) ≠ some .notFound :=
  ⟨rfl, by decide⟩

/-- Claim C5 as amended: for every tool name not registered in the
hand-written dispatcher's switch, `tools/call` yields an error response whose
message identifies the unknown tool (`Unknown tool: name`), produced by a
thrown generic error that the boundary converts to the internal-error class
rather than a distinct not-found class. -/
theorem unknown_tool_thrown_as_internal_error (name : String) (args : RawArgs)
    (h1 : name ≠ "sayHello") (h2 : name ≠ "calculate") :
    legacyDispatchToolsCall name args = .failure .internal ("Unknown tool: " ++ name) := by
  unfold legacyDispatchToolsCall legacyToolsCall
  simp [h1, h2]

/-- Witness for the amended C5 at a concrete unregistered name. -/
theorem unknown_tool_thrown_as_internal_error_witness :
    legacyDispatchToolsCall "doesNotExist" []
      = .failure .internal ("Unknown tool: " ++ "doesNotExist") :=
  unknown_tool_thrown_as_internal_error "doesNotExist" [] (by decide) (by decide)

/-- Claim C6: within a single request, validation precedes handler
invocation — when the supplied arguments fail the sayHello input contract,
the tool returns the structured `Validation failed` error and the handler
body is never invoked: the outcome is unchanged under arbitrary replacement
handlers. -/
theorem validation_precedes_handler_invocation (args : RawArgs) (w : World)
    (issues : List ZodIssue)
    (h1 h2 : String → World → Except String ToolEnvelope)
    (hfail : SayHelloSchemaParse args = .error issues) :
    sayHelloTool args w = .error ("Validation failed: " ++ renderIssues issues)
    ∧ runValidatedTool (validateToolArgs SayHelloSchemaParse) h1 args w
      = runValidatedTool (validateToolArgs SayHelloSchemaParse) h2 args w := by
  refine ⟨?_, runValidatedTool_error_independent _ _ _ _ hfail h1 h2⟩
  simp [sayHelloTool, runValidatedTool, validateToolArgs, hfail]

/-- Witness for C6: a numeric `name` argument fails validation and two
distinct replacement handlers produce the same outcome. -/
theorem validation_precedes_handler_invocation_witness :
    sayHelloTool [("name", .num 5)] w0
      = .error ("Validation failed: "
          ++ renderIssues [⟨["name"], "Expected string, received number"⟩])
    ∧ runValidatedTool (validateToolArgs SayHelloSchemaParse)
        (fun _ _ => .ok ⟨[⟨"text", "left"⟩]⟩) [("name", .num 5)] w0
      = runValidatedTool (validateToolArgs SayHelloSchemaParse)
        (fun _ _ => .ok ⟨[⟨"text", "right"⟩]⟩) [("name", .num 5)] w0 :=
  validation_precedes_handler_invocation [("name", .num 5)] w0
    [⟨["name"], "Expected string, received number"⟩]
    (fun _ _ => .ok ⟨[⟨"text", "left"⟩]⟩) (fun _ _ => .ok ⟨[⟨"text", "right"⟩]⟩)
    (by simp [SayHelloSchemaParse, parseNameField, lookupField, List.find?, JSValue.typeName])

/-- Claim C7: reading the resource `mcp://server-info` returns a success
envelope whose contents are the JSON-encoded descriptor, and that descriptor
contains at least the fields `name` and `version`. -/
theorem server_info_resource_read (w : World) :
    (dispatch createMCPServer (.resourcesRead "mcp://server-info") w).fst
      = .success (.resource ⟨[⟨"mcp://server-info", "application/json",
          renderJ (.obj (serverInfoFields w))⟩]⟩)
    ∧ lookupField (serverInfoFields w) "name" = some (.str "ts-template-mcp-server")
    ∧ lookupField (serverInfoFields w) "version" = some (.str "1.0.0") :=
  ⟨rfl, rfl, rfl⟩

/-- Claim C8: `tools/list` and `resources/list` are idempotent — the
capability table is populated once by `createMCPServer` and no request
modifies it, so after any interleaving of requests (against the single MCP
server instance shared by all sessions) the list responses are identical to
the initial ones, regardless of the ambient world. -/
theorem capability_lists_idempotent (reqs : List (McpRequest × World)) (w w' : World) :
    runSeq createMCPServer reqs = createMCPServer
    ∧ (dispatch (runSeq createMCPServer reqs) .toolsList w).fst
      = (dispatch createMCPServer .toolsList w').fst
    ∧ (dispatch (runSeq createMCPServer reqs) .resourcesList w).fst
      = (dispatch createMCPServer .resourcesList w').fst := by
  have hpres : ∀ (st : McpServerState) (req : McpRequest) (wx : World),
      (dispatch st req wx).snd = st := by
    intro st req wx
    unfold dispatch
    cases req <;> (repeat' split) <;> rfl
  have hrun : ∀ (rs : List (McpRequest × World)) (st : McpServerState), runSeq st rs = st := by
    intro rs
    induction rs with
    | nil => intro st; rfl
    | cons r rs ih =>
      intro st
      show runSeq (dispatch st r.fst r.snd).snd rs = st
      rw [hpres st r.fst r.snd]
      exact ih st
  refine ⟨hrun reqs _, ?_, ?_⟩ <;> rw [hrun reqs] <;> rfl

/-- Claim C9: a `getWeatherForecast` call whose latitude lies outside
`[-90, 90]` or whose longitude lies outside `[-180, 180]` is rejected with a
validation error — the tool returns an error, and the simulated weather
lookup is never performed, since the outcome is unchanged under arbitrary
replacement handlers — while numeric coordinates within those bounds pass
validation. -/
theorem weather_coordinate_bounds_validation (lat lon : Rat) (w : World)
    (h1 h2 : WeatherForecastArgs → World → Except String ToolEnvelope) :
    ((lat < -90 ∨ 90 < lat ∨ lon < -180 ∨ 180 < lon) →
      ((∃ issues, issues ≠ [] ∧ WeatherForecastSchemaParse (wfArgs lat lon) = .error issues)
       ∧ (∃ msg, getWeatherForecastTool (wfArgs lat lon) w = .error msg)
       ∧ runValidatedTool (validateToolArgs WeatherForecastSchemaParse) h1 (wfArgs lat lon) w
         = runValidatedTool (validateToolArgs WeatherForecastSchemaParse) h2 (wfArgs lat lon) w))
    ∧ (-90 ≤ lat → lat ≤ 90 → -180 ≤ lon → lon ≤ 180 →
      WeatherForecastSchemaParse (wfArgs lat lon) = .ok ⟨lat, lon⟩) := by
  have hlat : lookupField (wfArgs lat lon) "latitude" = some (.num lat) := rfl
  have hlon : lookupField (wfArgs lat lon) "longitude" = some (.num lon) := rfl
  constructor
  · intro hout
    have hfail : ∃ issues, issues ≠ [] ∧
        WeatherForecastSchemaParse (wfArgs lat lon) = .error issues := by
      unfold WeatherForecastSchemaParse
      rw [hlat, hlon]
      simp only [parseLatitudeField, parseLongitudeField]
      by_cases p1 : lat < -90 <;> by_cases p2 : lat > 90 <;>
        by_cases p3 : lon < -180 <;> by_cases p4 : lon > 180 <;>
        simp only [p1, p2, p3, p4, if_true, if_false] <;>
        first
          | exact ⟨_, by simp [fieldIssues], rfl⟩
          | (exfalso; push_neg at p1 p2 p3 p4; rcases hout with h | h | h | h <;> linarith)
    obtain ⟨issues, hne, hp⟩ := hfail
    refine ⟨⟨issues, hne, hp⟩, ⟨"Validation failed: " ++ renderIssues issues, ?_⟩,
      runValidatedTool_error_independent _ _ _ _ hp h1 h2⟩
    simp [getWeatherForecastTool, runValidatedTool, validateToolArgs, hp]
  · intro ha hb hc hd
    unfold WeatherForecastSchemaParse
    rw [hlat, hlon]
    simp only [parseLatitudeField, parseLongitudeField]
    rw [if_neg (not_lt.2 ha), if_neg (not_lt.2 hb), if_neg (not_lt.2 hc), if_neg (not_lt.2 hd)]

/-- Witness for C9: latitude `100` is rejected without invoking either of two
distinct replacement handlers, and coordinates `(10, 20)` pass validation. -/
theorem weather_coordinate_bounds_validation_witness :
    ((∃ issues, issues ≠ [] ∧ WeatherForecastSchemaParse (wfArgs 100 0) = .error issues)
     ∧ (∃ msg, getWeatherForecastTool (wfArgs 100 0) w0 = .error msg)
     ∧ runValidatedTool (validateToolArgs WeatherForecastSchemaParse)
         (fun _ _ => .ok ⟨[⟨"text", "left"⟩]⟩) (wfArgs 100 0) w0
       = runValidatedTool (validateToolArgs WeatherForecastSchemaParse)
         (fun _ _ => .ok ⟨[⟨"text", "right"⟩]⟩) (wfArgs 100 0) w0)
    ∧ WeatherForecastSchemaParse (wfArgs 10 20) = .ok ⟨10, 20⟩ :=
  ⟨(weather_coordinate_bounds_validation 100 0 w0 (fun _ _ => .ok ⟨[⟨"text", "left"⟩]⟩)
      (fun _ _ => .ok ⟨[⟨"text", "right"⟩]⟩)).1 (Or.inr (Or.inl (by norm_num))),
   (weather_coordinate_bounds_validation 10 20 w0 (fun _ _ => .ok ⟨[⟨"text", "left"⟩]⟩)
      (fun _ _ => .ok ⟨[⟨"text", "right"⟩]⟩)).2 (by norm_num) (by norm_num)
      (by norm_num) (by norm_num)⟩

/-- Claim C10: the sayHello and calculate handlers are deterministic — their
outputs are invariant under every change of the ambient world (time, random
draws), both as raw handlers and as full validated tools — unlike the
weather simulation, whose output differs between two worlds that agree on
everything except one random draw. -/
theorem pure_handlers_deterministic_weather_randomized :
    (∀ (name : String) (w w' : World), sayHelloHandler name w = sayHelloHandler name w')
    ∧ (∀ (op : String) (a b : Rat) (w w' : World),
        calculateHandler op a b w = calculateHandler op a b w')
    ∧ (∀ (args : RawArgs) (w w' : World), sayHelloTool args w = sayHelloTool args w')
    ∧ (∀ (args : RawArgs) (w w' : World), calculateTool args w = calculateTool args w')
    ∧ (∃ (lat lon : Rat) (w w' : World),
        simulateWeatherAPI lat lon w ≠ simulateWeatherAPI lat lon w') := by
  refine ⟨fun _ _ _ => rfl, fun _ _ _ _ _ => rfl, fun _ _ _ => rfl, fun _ _ _ => rfl,
    0, 0, w0, wRandB, ?_⟩
  have hA : simulateWeatherAPI 0 0 w0
      = "Current Conditions: Sunny\nTemperature: 15C\n        Location: 0, 0\nUpdated: 0" := by
    simp only [simulateWeatherAPI, w0, jsRound, jsFloor, weatherConditions, numRepr,
      localeString]
    norm_num
    decide
  have hB : simulateWeatherAPI 0 0 wRandB
      = "Current Conditions: Rainy\nTemperature: 15C\n        Location: 0, 0\nUpdated: 0" := by
    simp only [simulateWeatherAPI, wRandB, jsRound, jsFloor, weatherConditions, numRepr,
      localeString]
    norm_num
    decide
  rw [hA, hB]
  decide
